import Mathlib

/-!
Shallow embedding of the roof-damage-assessment toolbox scripts
(`prepare_images.py`, `export_training_data.py`, `delineate_roof_damage.py`,
`calculate_accuracy.py`).

Each script is glue code around the arcpy geoprocessing engine: it validates
its workspace parameters, enumerates catalog items, and issues a sequence of
arcpy calls per item, skipping items whose companion datasets are missing.
We embed each `main` as a pure function from an environment (the file system
and geodatabase catalogs, plus the spatial-reference metadata arcpy would
report) to either a Python-level error (`FileNotFoundError` / `ValueError`)
or a run result: the ordered trace of engine operations issued, the list of
skipped items, and the lines of the final skipped-items report.

The arcpy operations themselves are opaque to the scripts, so they are
embedded as inert trace elements carrying exactly the parameters the source
passes; the pure field expressions the scripts generate (the accuracy
category code block and the precision/recall/F1/IoU expressions) are
embedded as Lean functions.
-/

/-- Index of the last occurrence of a character in a list, if any. -/
def lastIdxOf (c : Char) : List Char → Option Nat
  | [] => none
  | a :: rest =>
    match lastIdxOf c rest with
    | some i => some (i + 1)
    | none => if a = c then some 0 else none

/-- Model of Python's `os.path.basename` for POSIX-style paths: the part of
the path after the last separator. -/
def py_basename (path : String) : String :=
  match lastIdxOf '/' path.data with
  | none => path
  | some i => String.mk (path.data.drop (i + 1))

/-- Model of Python's `os.path.splitext` applied to a bare file name (no
separators): the extension starts at the last dot, except that a leading run
of dots never starts an extension (`splitext(".gdb") = (".gdb", "")`). -/
def py_splitext (name : String) : String × String :=
  let cs := name.data
  match lastIdxOf '.' cs with
  | none => (name, "")
  | some d =>
    if (cs.take d).all (fun ch => ch = '.') then (name, "")
    else (String.mk (cs.take d), String.mk (cs.drop d))

/-- Model of Python's `os.path.join` for the uses in these scripts: the left
operand is a workspace path without a trailing separator and the right
operand is a relative dataset name. -/
def pathJoin (a b : String) : String :=
  a ++ "/" ++ b

/-- The two Python exception types the scripts raise during validation. -/
inductive PyError where
  | fileNotFoundError (msg : String)
  | valueError (msg : String)
deriving DecidableEq

/-- The environment a script run observes: `os.path.exists`, the arcpy
catalog listings (`ListRasters`, `ListFeatureClasses`) per workspace, and the
spatial-reference metadata `arcpy.Describe` reports per dataset. -/
structure Env where
  pathExists : String → Bool
  listRasters : String → List String
  listFeatureClasses : String → List String
  srType : String → String
  srString : String → String

/-- Result of a script run that completed without raising: the ordered trace
of engine operations, the skipped-items list, and the lines printed by the
final skipped-items report. -/
structure RunResult (op : Type) where
  trace : List op
  skipped : List String
  printed : List String
deriving DecidableEq

/-- The per-item loop shared by the scripts: each iteration appends the
operations it issued to the trace and, when it skips its item, appends the
item to the skipped list. -/
def runLoop {op : Type} (step : String → List op × Option String) (items : List String) :
    List op × List String :=
  items.foldl (fun acc i => (acc.1 ++ (step i).1, acc.2 ++ ((step i).2).toList)) ([], [])

namespace PrepareImages

/-- `prepare_images.get_workspace_extension`: extension of the basename of a
workspace path. -/
def get_workspace_extension (workspace_path : String) : String :=
  (py_splitext (py_basename workspace_path)).2

/-- `prepare_images.get_file_name`: name of a file without its extension. -/
def get_file_name (file_path : String) : String :=
  (py_splitext (py_basename file_path)).1

/-- The arcpy raster operations `prepare_images.py` issues, with the
parameters the source passes. -/
inductive PIOp where
  | makeRasterLayer (in_raster out_rasterlayer band_index : String)
  | projectRaster (in_raster out_raster out_coor_system resampling_type : String) (cell_size : ℚ)
  | resampleRaster (in_raster out_raster : String) (cell_size : ℚ) (resampling_type : String)
  | clipRaster (in_raster out_raster in_template_dataset clipping_geometry : String)
  | copyRaster (in_raster out_rasterdataset pixel_type : String)
deriving DecidableEq

/-- `prepare_images.extract_rgb_bands`: `MakeRasterLayer` on bands 1;2;3. -/
def extract_rgb_bands (input_image_path output_layer_path : String) : PIOp :=
  PIOp.makeRasterLayer input_image_path output_layer_path "1;2;3"

/-- `prepare_images.project_resample_image`: `ProjectRaster` with cubic
resampling at a 0.05 cell size. -/
def project_resample_image (input_image_path output_image_path spatial_ref_string : String) : PIOp :=
  PIOp.projectRaster input_image_path output_image_path spatial_ref_string "CUBIC" 0.05

/-- `prepare_images.resample_image`: `Resample` to a 0.05 cell size with
cubic resampling. -/
def resample_image (input_image_path output_image_path : String) : PIOp :=
  PIOp.resampleRaster input_image_path output_image_path 0.05 "CUBIC"

/-- `prepare_images.clip_image`: `Clip` with `ClippingGeometry`. -/
def clip_image (input_image_path output_image_path clipping_fclass_path : String) : PIOp :=
  PIOp.clipRaster input_image_path output_image_path clipping_fclass_path "ClippingGeometry"

/-- `prepare_images.export_image`: `CopyRaster` to an 8-bit unsigned
raster. -/
def export_image (input_image_path output_image_path : String) : PIOp :=
  PIOp.copyRaster input_image_path output_image_path "8_BIT_UNSIGNED"

/-- One iteration of the image loop of `prepare_images.main`: skip when the
image has no same-named boundary feature class or an unknown spatial
reference; otherwise issue the preparation operations for the image. -/
def image_step (env : Env)
    (input_images_folder boundary_polygons_gdb output_images_gdb scratch_gdb : String)
    (boundary_fclasses : List String) (image : String) : List PIOp × Option String :=
  let image_name := get_file_name (pathJoin input_images_folder image)
  if image_name ∉ boundary_fclasses then ([], some image)
  else
    let image_sr_type := env.srType (pathJoin input_images_folder image)
    if image_sr_type = "Unknown" then ([], some image)
    else
      ((if image_sr_type = "Geographic" then
          [extract_rgb_bands (pathJoin input_images_folder image)
             (pathJoin scratch_gdb "temp_raster_layer"),
           project_resample_image (pathJoin scratch_gdb "temp_raster_layer")
             (pathJoin scratch_gdb "resampled")
             (env.srString (pathJoin boundary_polygons_gdb image_name))]
        else []) ++
       (if image_sr_type = "Projected" then
          [resample_image (pathJoin input_images_folder image) (pathJoin scratch_gdb "resampled")]
        else []) ++
       [clip_image (pathJoin scratch_gdb "resampled") (pathJoin scratch_gdb "clipped")
          (pathJoin boundary_polygons_gdb image_name),
        export_image (pathJoin scratch_gdb "clipped") (pathJoin output_images_gdb image_name)],
       none)

/-- The final skipped-images report of `prepare_images.main`: printed only
when at least one image was skipped. -/
def skip_report (skipped : List String) : List String :=
  if skipped.length > 0 then "\nThe following images were skipped:" :: skipped else []

/-- `prepare_images.main`: validate the workspaces, enumerate the images,
then run the per-image preparation loop. -/
def main (env : Env)
    (input_images_folder boundary_polygons_gdb output_images_gdb scratch_gdb : String) :
    Except PyError (RunResult PIOp) :=
  match List.find? (fun w => ! env.pathExists w)
      [input_images_folder, boundary_polygons_gdb, output_images_gdb, scratch_gdb] with
  | some w => Except.error (PyError.fileNotFoundError (w ++ " does not exist."))
  | none =>
    if get_workspace_extension boundary_polygons_gdb ≠ ".gdb" then
      Except.error (PyError.valueError
        "The boundary polygons path must correspond to a file geodatabase (.gdb).")
    else if get_workspace_extension output_images_gdb ≠ ".gdb" then
      Except.error (PyError.valueError
        "The output images path must correspond to a file geodatabase (.gdb).")
    else if get_workspace_extension scratch_gdb ≠ ".gdb" then
      Except.error (PyError.valueError
        "The scratch path must correspond to a file geodatabase (.gdb).")
    else if (env.listRasters input_images_folder).length = 0 then
      Except.error (PyError.fileNotFoundError
        "The input images folder contains zero valid images. Valid raster types include BMP, GIF, IMG, JP2, JPG, PNG, TIF, and GRID.")
    else
      Except.ok
        ⟨(runLoop
            (image_step env input_images_folder boundary_polygons_gdb output_images_gdb
              scratch_gdb (env.listFeatureClasses boundary_polygons_gdb))
            (env.listRasters input_images_folder)).1,
         (runLoop
            (image_step env input_images_folder boundary_polygons_gdb output_images_gdb
              scratch_gdb (env.listFeatureClasses boundary_polygons_gdb))
            (env.listRasters input_images_folder)).2,
         skip_report
           (runLoop
              (image_step env input_images_folder boundary_polygons_gdb output_images_gdb
                scratch_gdb (env.listFeatureClasses boundary_polygons_gdb))
              (env.listRasters input_images_folder)).2⟩

/-- The dataset an operation reads. -/
def opSrc : PIOp → String
  | PIOp.makeRasterLayer i _ _ => i
  | PIOp.projectRaster i _ _ _ _ => i
  | PIOp.resampleRaster i _ _ _ => i
  | PIOp.clipRaster i _ _ _ => i
  | PIOp.copyRaster i _ _ => i

/-- The dataset an operation writes. -/
def opDst : PIOp → String
  | PIOp.makeRasterLayer _ o _ => o
  | PIOp.projectRaster _ o _ _ _ => o
  | PIOp.resampleRaster _ o _ _ => o
  | PIOp.clipRaster _ o _ _ => o
  | PIOp.copyRaster _ o _ => o

/-- Provenance semantics of a trace: every operation of the script derives
its output dataset from its input dataset, so running a trace updates a map
from dataset path to the source-image path its pixels derive from. -/
def runProv (store : String → Option String) : List PIOp → (String → Option String)
  | [] => store
  | op :: rest =>
    runProv (fun p => if p = opDst op then store (opSrc op) else store p) rest

end PrepareImages

namespace ExportTrainingData

/-- `export_training_data.get_workspace_extension`: extension of the
basename of a workspace path. -/
def get_workspace_extension (workspace_path : String) : String :=
  (py_splitext (py_basename workspace_path)).2

/-- The arcpy operation `export_training_data.py` issues per image, with the
fixed parameter block the source passes to
`ExportTrainingDataForDeepLearning`. -/
inductive ETOp where
  | exportTiles (in_raster out_folder in_class_data image_chip_format : String)
      (tile_size_x tile_size_y stride_x stride_y : Nat)
      (metadata_format in_mask_polygons reference_system processing_mode : String)
deriving DecidableEq

/-- `export_training_data.export_training_data`: 512x512 TIFF tiles with
stride 128, classified-tiles metadata, masked by the boundary polygons. -/
def export_training_data (input_image_path output_folder_path training_polygons_fclass_path
    image_boundary_fclass_path : String) : ETOp :=
  ETOp.exportTiles input_image_path output_folder_path training_polygons_fclass_path "TIFF"
    512 512 128 128 "Classified_Tiles" image_boundary_fclass_path "MAP_SPACE"
    "PROCESS_AS_MOSAICKED_IMAGE"

/-- One iteration of the image loop of `export_training_data.main`: skip
when the image lacks a same-named training polygons or boundary feature
class, otherwise export training data for the image. -/
def image_step (input_images_gdb training_polygons_gdb boundary_polygons_gdb
    output_data_folder : String) (training_polygons_fclasses boundary_fclasses : List String)
    (image : String) : List ETOp × Option String :=
  if image ∉ training_polygons_fclasses then ([], some image)
  else if image ∉ boundary_fclasses then ([], some image)
  else
    ([export_training_data (pathJoin input_images_gdb image) output_data_folder
        (pathJoin training_polygons_gdb image) (pathJoin boundary_polygons_gdb image)],
     none)

/-- The final skipped-images report of `export_training_data.main`. -/
def skip_report (skipped : List String) : List String :=
  if skipped.length > 0 then "\nThe following images were skipped:" :: skipped else []

/-- `export_training_data.main`: validate the workspaces, enumerate the
images, then run the per-image export loop. -/
def main (env : Env)
    (input_images_gdb training_polygons_gdb boundary_polygons_gdb output_data_folder : String) :
    Except PyError (RunResult ETOp) :=
  match List.find? (fun w => ! env.pathExists w)
      [input_images_gdb, boundary_polygons_gdb, training_polygons_gdb, output_data_folder] with
  | some w => Except.error (PyError.fileNotFoundError (w ++ " does not exist."))
  | none =>
    if get_workspace_extension input_images_gdb ≠ ".gdb" then
      Except.error (PyError.valueError
        "The input images path must correspond to a file geodatabase (.gdb).")
    else if get_workspace_extension training_polygons_gdb ≠ ".gdb" then
      Except.error (PyError.valueError
        "The training polygons path must correspond to a file geodatabase (.gdb).")
    else if get_workspace_extension boundary_polygons_gdb ≠ ".gdb" then
      Except.error (PyError.valueError
        "The boundary polygons path must correspond to a file geodatabase (.gdb).")
    else if (env.listRasters input_images_gdb).length = 0 then
      Except.error (PyError.fileNotFoundError
        "The input images file geodatabase contains zero rasters.")
    else
      Except.ok
        ⟨(runLoop
            (image_step input_images_gdb training_polygons_gdb boundary_polygons_gdb
              output_data_folder (env.listFeatureClasses training_polygons_gdb)
              (env.listFeatureClasses boundary_polygons_gdb))
            (env.listRasters input_images_gdb)).1,
         (runLoop
            (image_step input_images_gdb training_polygons_gdb boundary_polygons_gdb
              output_data_folder (env.listFeatureClasses training_polygons_gdb)
              (env.listFeatureClasses boundary_polygons_gdb))
            (env.listRasters input_images_gdb)).2,
         skip_report
           (runLoop
              (image_step input_images_gdb training_polygons_gdb boundary_polygons_gdb
                output_data_folder (env.listFeatureClasses training_polygons_gdb)
                (env.listFeatureClasses boundary_polygons_gdb))
              (env.listRasters input_images_gdb)).2⟩

end ExportTrainingData

namespace DelineateRoofDamage

/-- `delineate_roof_damage.get_workspace_extension`: extension of the
basename of a workspace path. -/
def get_workspace_extension (workspace_path : String) : String :=
  (py_splitext (py_basename workspace_path)).2

/-- The in-memory classified raster returned by
`ClassifyPixelsUsingDeepLearning`, identified by the image and model that
produced it. -/
structure ClassifiedRaster where
  image : String
  model : String
deriving DecidableEq

/-- `delineate_roof_damage.generate_classified_raster`: classify the image
with the model; the result is the in-memory raster later converted to
polygons. -/
def generate_classified_raster (input_image_path input_model_path : String) : ClassifiedRaster :=
  ⟨input_image_path, input_model_path⟩

/-- The arcpy operations `delineate_roof_damage.py` issues, with the
parameters the source passes. -/
inductive DROp where
  | classifyPixels (in_raster in_model_definition arguments : String)
  | rasterToPolygon (in_raster : ClassifiedRaster)
      (out_polygon_features simplify raster_field create_multipart_features : String)
  | deleteField (in_table : String) (drop_field : List String) (method : String)
  | merge (inputs : List String) (output add_source field_match_mode : String)
deriving DecidableEq

/-- The classification call inside
`delineate_roof_damage.generate_classified_raster`, with its fixed argument
block. -/
def classify_pixels (input_image_path input_model_path : String) : DROp :=
  DROp.classifyPixels input_image_path input_model_path
    "batch_size 4; padding 128; predict_background False; test_time_augmentation False"

/-- `delineate_roof_damage.raster_to_fclass`: `RasterToPolygon` producing
single-part polygons from the `Class` field with no simplification. -/
def raster_to_fclass (input_raster : ClassifiedRaster) (output_fclass_path : String) : DROp :=
  DROp.rasterToPolygon input_raster output_fclass_path "NO_SIMPLIFY" "Class" "SINGLE_OUTER_PART"

/-- `delineate_roof_damage.delete_fclass_fields`: delete the `Id` and
`gridcode` fields. -/
def delete_fclass_fields (input_fclass_path : String) : DROp :=
  DROp.deleteField input_fclass_path ["Id", "gridcode"] "DELETE_FIELDS"

/-- `delineate_roof_damage.merge_fclasses`: `Merge` with automatic field
matching and no source info. -/
def merge_fclasses (fclass_paths_list : List String) (output_fclass_path : String) : DROp :=
  DROp.merge fclass_paths_list output_fclass_path "NO_SOURCE_INFO" "AUTOMATIC"

/-- The model dictionary of `delineate_roof_damage.main`: insertion order is
decking, hole, dual, and a model is present exactly when its path parameter
is a non-empty string (Python dicts preserve insertion order). -/
def model_dictionary (model_path_decking model_path_hole model_path_dual : String) :
    List (String × String) :=
  (if model_path_decking ≠ "" then [("decking", model_path_decking)] else []) ++
  (if model_path_hole ≠ "" then [("hole", model_path_hole)] else []) ++
  (if model_path_dual ≠ "" then [("dual", model_path_dual)] else [])

/-- One iteration of the image loop of `delineate_roof_damage.main`: for
each model (in dictionary order) classify the image, convert the classified
raster to a single-part polygon feature class in the scratch geodatabase,
delete its `Id` and `gridcode` fields, then merge the per-model feature
classes into one feature class named after the image. -/
def image_step (input_images_gdb output_fclasses_gdb scratch_gdb : String)
    (models : List (String × String)) (image : String) : List DROp :=
  (models.flatMap (fun m =>
    [classify_pixels (pathJoin input_images_gdb image) m.2,
     raster_to_fclass (generate_classified_raster (pathJoin input_images_gdb image) m.2)
       (pathJoin scratch_gdb (image ++ "_" ++ m.1)),
     delete_fclass_fields (pathJoin scratch_gdb (image ++ "_" ++ m.1))])) ++
  [merge_fclasses (models.map (fun m => pathJoin scratch_gdb (image ++ "_" ++ m.1)))
     (pathJoin output_fclasses_gdb image)]

/-- `delineate_roof_damage.main`: validate the workspaces and model paths,
enumerate the test images, then run the per-image delineation loop. -/
def main (env : Env) (input_images_gdb model_path_decking model_path_hole model_path_dual
    output_fclasses_gdb scratch_gdb : String) : Except PyError (List DROp) :=
  match List.find? (fun w => ! env.pathExists w)
      [input_images_gdb, output_fclasses_gdb, scratch_gdb] with
  | some w => Except.error (PyError.fileNotFoundError (w ++ " does not exist."))
  | none =>
    if (List.filter (fun p => p != "")
        [model_path_decking, model_path_hole, model_path_dual]).length = 0 then
      Except.error (PyError.fileNotFoundError
        "There are zero input models. Input at least one model path (.emd or .dlpk).")
    else
      match List.find? (fun p => ! env.pathExists p)
          (List.filter (fun p => p != "")
            [model_path_decking, model_path_hole, model_path_dual]) with
      | some p => Except.error (PyError.fileNotFoundError (p ++ " does not exist."))
      | none =>
        if get_workspace_extension input_images_gdb ≠ ".gdb" then
          Except.error (PyError.valueError
            "The input images path must correspond to a file geodatabase (.gdb).")
        else if get_workspace_extension output_fclasses_gdb ≠ ".gdb" then
          Except.error (PyError.valueError
            "The output path must correspond to a file geodatabase (.gdb).")
        else if get_workspace_extension scratch_gdb ≠ ".gdb" then
          Except.error (PyError.valueError
            "The scratch path must correspond to a file geodatabase (.gdb).")
        else if (env.listRasters input_images_gdb).length = 0 then
          Except.error (PyError.fileNotFoundError
            "The input images file geodatabase contains zero rasters.")
        else
          Except.ok ((env.listRasters input_images_gdb).foldl
            (fun acc image => acc ++
              image_step input_images_gdb output_fclasses_gdb scratch_gdb
                (model_dictionary model_path_decking model_path_hole model_path_dual) image)
            [])

end DelineateRoofDamage

namespace CalculateAccuracy

/-- `calculate_accuracy.get_workspace_extension`: extension of the basename
of a workspace path. -/
def get_workspace_extension (workspace_path : String) : String :=
  (py_splitext (py_basename workspace_path)).2

/-- The arcpy operations `calculate_accuracy.py` issues; each constructor is
named after the source helper function that wraps the corresponding arcpy
call, and carries the arguments the helper receives from `main` (the
helpers' remaining arcpy parameters are fixed in the source). -/
inductive CAOp where
  | dissolve_fclass_by_class (input_fclass_path output_fclass_path class_field_name : String)
  | create_layer_by_class
      (input_fclass_path output_layer_name class_field_name class_name : String)
  | layer_to_fclass (input_layer_name output_fclass_path : String)
  | layer_to_raster (input_layer_name class_field_name snap_raster_path output_raster_path : String)
  | raster_to_fclass (input_raster_path class_field_name output_fclass_path : String)
  | create_union_fclass (predicted_fclass_path reference_fclass_path output_fclass_path : String)
  | calculate_accuracy_category_field
      (input_fclass_path predicted_fclass_name reference_fclass_name : String)
  | create_pixels_per_category_table
      (input_fclass_path input_image_path output_table_path : String)
  | calculate_zone_code_field (input_table_path : String)
  | pivot_table (input_table_path output_table_path : String)
  | delete_zone_code_field (input_table_path : String)
  | calculate_image_field (input_table_path image_name : String)
  | calculate_class_field (input_table_path class_name : String)
  | verify_accuracy_category_fields (input_table_path : String)
  | merge_accuracy_tables (input_table_paths : List String) (output_table_path : String)
  | add_summary_row (input_table_path class_name : String)
  | calculate_union_field (input_table_path : String)
  | calculate_precision_field (input_table_path : String)
  | calculate_recall_field (input_table_path : String)
  | calculate_f1_field (input_table_path : String)
  | calculate_iou_field (input_table_path : String)
  | improve_field_settings (input_table_path output_table_path : String)
deriving DecidableEq

/-- The damage classes evaluated by `calculate_accuracy.main`. -/
def damage_classes : List String := ["Decking", "Hole"]

/-- The Python code block `calculate_accuracy.calculate_accuracy_category_field`
generates and passes to `CalculateField`: label a union feature by its two
FID fields. -/
def accuracy_category (fid_predicted fid_reference : Int) : String :=
  if fid_predicted = 1 ∧ fid_reference = 1 then "TP"
  else if fid_predicted = 1 ∧ fid_reference = -1 then "FP"
  else if fid_predicted = -1 ∧ fid_reference = 1 then "FN"
  else "None"

/-- Python division: raises `ZeroDivisionError` (modelled as `none`) when
the divisor is zero. -/
def py_div (a b : ℚ) : Option ℚ :=
  if b = 0 then none else some (a / b)

/-- The expression `calculate_accuracy.calculate_precision_field` passes to
`CalculateField`: `!TP! / (!TP! + !FP!)` (its result is then formatted with
two decimal places, which does not affect definedness). -/
def precision_expression (tp fp : ℚ) : Option ℚ :=
  py_div tp (tp + fp)

/-- The expression `calculate_accuracy.calculate_recall_field` passes to
`CalculateField`: `!TP! / (!TP! + !FN!)`. -/
def recall_expression (tp fn : ℚ) : Option ℚ :=
  py_div tp (tp + fn)

/-- The expression `calculate_accuracy.calculate_f1_field` passes to
`CalculateField`: `(2 * !TP!) / ((2 * !TP!) + !FP! + !FN!)`. -/
def f1_expression (tp fp fn : ℚ) : Option ℚ :=
  py_div (2 * tp) (2 * tp + fp + fn)

/-- The expression `calculate_accuracy.calculate_iou_field` passes to
`CalculateField`: `!TP! / (!TP! + !FP! + !FN!)`. -/
def iou_expression (tp fp fn : ℚ) : Option ℚ :=
  py_div tp (tp + fp + fn)

/-- One iteration of the evaluation loop of `calculate_accuracy.main`: skip
the predicted polygons feature class when it has no same-named reference
feature class or prepared test image; otherwise dissolve both inputs and
evaluate each damage class. -/
def fclass_step (predicted_polygons_gdb reference_polygons_gdb prepared_test_images_gdb
    scratch_gdb : String) (reference_polygons_fclasses prepared_test_images : List String)
    (fclass_name : String) : List CAOp × Option String :=
  if fclass_name ∉ reference_polygons_fclasses then ([], some fclass_name)
  else if fclass_name ∉ prepared_test_images then ([], some fclass_name)
  else
    ([CAOp.dissolve_fclass_by_class (pathJoin predicted_polygons_gdb fclass_name)
        (pathJoin scratch_gdb "predicted_polygons_dissolve") "Class",
      CAOp.dissolve_fclass_by_class (pathJoin reference_polygons_gdb fclass_name)
        (pathJoin scratch_gdb "reference_polygons_dissolve") "ClassName"] ++
     damage_classes.flatMap (fun dc =>
       [CAOp.create_layer_by_class (pathJoin scratch_gdb "predicted_polygons_dissolve")
          ("predicted_polygons_dissolve_" ++ dc) "Class" dc,
        CAOp.layer_to_fclass ("predicted_polygons_dissolve_" ++ dc)
          (pathJoin scratch_gdb ("predicted_" ++ dc)),
        CAOp.create_layer_by_class (pathJoin scratch_gdb "reference_polygons_dissolve")
          ("reference_polygons_dissolve_" ++ dc) "ClassName" dc,
        CAOp.layer_to_raster ("reference_polygons_dissolve_" ++ dc) "ClassName"
          (pathJoin prepared_test_images_gdb fclass_name)
          (pathJoin scratch_gdb ("reference_raster_" ++ dc)),
        CAOp.raster_to_fclass (pathJoin scratch_gdb ("reference_raster_" ++ dc)) "ClassName"
          (pathJoin scratch_gdb ("reference_" ++ dc)),
        CAOp.create_union_fclass (pathJoin scratch_gdb ("predicted_" ++ dc))
          (pathJoin scratch_gdb ("reference_" ++ dc)) (pathJoin scratch_gdb ("union_" ++ dc)),
        CAOp.calculate_accuracy_category_field (pathJoin scratch_gdb ("union_" ++ dc))
          ("predicted_" ++ dc) ("reference_" ++ dc),
        CAOp.create_pixels_per_category_table (pathJoin scratch_gdb ("union_" ++ dc))
          (pathJoin prepared_test_images_gdb fclass_name)
          (pathJoin scratch_gdb ("union_stats_" ++ dc)),
        CAOp.calculate_zone_code_field (pathJoin scratch_gdb ("union_stats_" ++ dc)),
        CAOp.pivot_table (pathJoin scratch_gdb ("union_stats_" ++ dc))
          (pathJoin scratch_gdb ("accuracy_" ++ dc ++ "_" ++ fclass_name)),
        CAOp.delete_zone_code_field
          (pathJoin scratch_gdb ("accuracy_" ++ dc ++ "_" ++ fclass_name)),
        CAOp.calculate_image_field
          (pathJoin scratch_gdb ("accuracy_" ++ dc ++ "_" ++ fclass_name)) fclass_name,
        CAOp.calculate_class_field
          (pathJoin scratch_gdb ("accuracy_" ++ dc ++ "_" ++ fclass_name)) dc,
        CAOp.verify_accuracy_category_fields
          (pathJoin scratch_gdb ("accuracy_" ++ dc ++ "_" ++ fclass_name))]),
     none)

/-- The final table-export phase of `calculate_accuracy.main`: for each
damage class, merge the per-image accuracy tables (the source builds the
merge input list from every feature class of the predicted polygons
geodatabase), add the summary row, compute the metric fields, and export the
final table. -/
def final_tables (scratch_gdb output_tables_gdb : String)
    (predicted_polygons_fclasses : List String) : List CAOp :=
  damage_classes.flatMap (fun dc =>
    [CAOp.merge_accuracy_tables
       (predicted_polygons_fclasses.map
         (fun fclass_name => pathJoin scratch_gdb ("accuracy_" ++ dc ++ "_" ++ fclass_name)))
       (pathJoin scratch_gdb ("accuracy_" ++ dc)),
     CAOp.add_summary_row (pathJoin scratch_gdb ("accuracy_" ++ dc)) dc,
     CAOp.calculate_union_field (pathJoin scratch_gdb ("accuracy_" ++ dc)),
     CAOp.calculate_precision_field (pathJoin scratch_gdb ("accuracy_" ++ dc)),
     CAOp.calculate_recall_field (pathJoin scratch_gdb ("accuracy_" ++ dc)),
     CAOp.calculate_f1_field (pathJoin scratch_gdb ("accuracy_" ++ dc)),
     CAOp.calculate_iou_field (pathJoin scratch_gdb ("accuracy_" ++ dc)),
     CAOp.improve_field_settings (pathJoin scratch_gdb ("accuracy_" ++ dc))
       (pathJoin output_tables_gdb ("Accuracy_" ++ dc))])

/-- The final skipped-feature-classes report of `calculate_accuracy.main`. -/
def skip_report (skipped : List String) : List String :=
  if skipped.length > 0
  then "\nThe following predicted polygons feature classes were skipped:" :: skipped
  else []

/-- `calculate_accuracy.main`: validate the workspaces, enumerate the
predicted polygons feature classes, run the per-feature-class evaluation
loop, then merge and export the per-damage-class accuracy tables. -/
def main (env : Env) (predicted_polygons_gdb reference_polygons_gdb prepared_test_images_gdb
    output_tables_gdb scratch_gdb : String) : Except PyError (RunResult CAOp) :=
  match List.find? (fun w => ! env.pathExists w)
      [predicted_polygons_gdb, reference_polygons_gdb, prepared_test_images_gdb,
       output_tables_gdb, scratch_gdb] with
  | some w => Except.error (PyError.fileNotFoundError (w ++ " does not exist."))
  | none =>
    if get_workspace_extension predicted_polygons_gdb ≠ ".gdb" then
      Except.error (PyError.valueError
        "The predicted polygons path must correspond to a file geodatabase (.gdb).")
    else if get_workspace_extension reference_polygons_gdb ≠ ".gdb" then
      Except.error (PyError.valueError
        "The reference polygons path must correspond to a file geodatabase (.gdb).")
    else if get_workspace_extension prepared_test_images_gdb ≠ ".gdb" then
      Except.error (PyError.valueError
        "The prepared test images path must correspond to a file geodatabase (.gdb).")
    else if get_workspace_extension output_tables_gdb ≠ ".gdb" then
      Except.error (PyError.valueError
        "The output accuracy tables path must correspond to a file geodatabase (.gdb).")
    else if get_workspace_extension scratch_gdb ≠ ".gdb" then
      Except.error (PyError.valueError
        "The scratch path must correspond to a file geodatabase (.gdb).")
    else if (env.listFeatureClasses predicted_polygons_gdb).length = 0 then
      Except.error (PyError.fileNotFoundError
        "The predicted polygons file geodatabase contains zero feature classes.")
    else
      Except.ok
        ⟨(runLoop
            (fclass_step predicted_polygons_gdb reference_polygons_gdb prepared_test_images_gdb
              scratch_gdb (env.listFeatureClasses reference_polygons_gdb)
              (env.listRasters prepared_test_images_gdb))
            (env.listFeatureClasses predicted_polygons_gdb)).1 ++
           final_tables scratch_gdb output_tables_gdb
             (env.listFeatureClasses predicted_polygons_gdb),
         (runLoop
            (fclass_step predicted_polygons_gdb reference_polygons_gdb prepared_test_images_gdb
              scratch_gdb (env.listFeatureClasses reference_polygons_gdb)
              (env.listRasters prepared_test_images_gdb))
            (env.listFeatureClasses predicted_polygons_gdb)).2,
         skip_report
           (runLoop
              (fclass_step predicted_polygons_gdb reference_polygons_gdb
                prepared_test_images_gdb scratch_gdb
                (env.listFeatureClasses reference_polygons_gdb)
                (env.listRasters prepared_test_images_gdb))
              (env.listFeatureClasses predicted_polygons_gdb)).2⟩

end CalculateAccuracy

/-- Builds a concrete environment from finite association lists: the listed
paths exist, the listed workspaces have the listed rasters and feature
classes, and the listed datasets have the listed spatial-reference types
(every other dataset reports an unknown spatial reference). -/
def envOfLists (ex : List String) (ras fcs : List (String × List String))
    (srt : List (String × String)) : Env :=
  ⟨fun p => ex.contains p,
   fun w => (((ras.find? (fun e => e.1 == w)).map Prod.snd).getD []),
   fun w => (((fcs.find? (fun e => e.1 == w)).map Prod.snd).getD []),
   fun p => (((srt.find? (fun e => e.1 == p)).map Prod.snd).getD "Unknown"),
   fun _ => "BOUNDARY_SR"⟩

/-- Concrete environment for exercising `prepare_images.main`: five images,
of which `g.tif` is geographic, `a.tif` is projected, `u.tif` has an unknown
spatial reference, `m.tif` has no boundary feature class, and `v.tif` has a
defined spatial reference that is neither geographic nor projected. -/
def piEnvW : Env :=
  envOfLists ["imgs", "bnd.gdb", "out.gdb", "scr.gdb", "plain", "imgs0"]
    [("imgs", ["g.tif", "a.tif", "u.tif", "m.tif", "v.tif"])]
    [("bnd.gdb", ["g", "a", "u", "v"])]
    [("imgs/g.tif", "Geographic"), ("imgs/a.tif", "Projected"), ("imgs/v.tif", "Vertical")]

/-- Concrete environment for exercising `export_training_data.main`: three
images, of which only `x` has both companion feature classes. -/
def etEnvW : Env :=
  envOfLists ["ti.gdb", "tp.gdb", "bp.gdb", "outf", "plain", "ti0.gdb"]
    [("ti.gdb", ["x", "y", "z"])]
    [("tp.gdb", ["x", "z"]), ("bp.gdb", ["x"])]
    []

/-- Concrete environment for exercising `delineate_roof_damage.main`: one
test image and two existing model files. -/
def drEnvW : Env :=
  envOfLists ["di.gdb", "do.gdb", "ds.gdb", "mdl_deck.dlpk", "mdl_dual.dlpk", "plain", "di0.gdb"]
    [("di.gdb", ["img"])]
    []
    []

/-- Concrete environment for exercising `calculate_accuracy.main`: two
predicted polygons feature classes, of which `img2` has no reference feature
class and is therefore skipped. -/
def caEnvW : Env :=
  envOfLists ["P.gdb", "R.gdb", "I.gdb", "O.gdb", "S.gdb", "plain", "P0.gdb"]
    [("I.gdb", ["img1"])]
    [("P.gdb", ["img1", "img2"]), ("R.gdb", ["img1"])]
    []

/-- The run result of `prepare_images.main` on the concrete environment
`piEnvW`. -/
def piResW : RunResult PrepareImages.PIOp :=
  (PrepareImages.main piEnvW "imgs" "bnd.gdb" "out.gdb" "scr.gdb").toOption.getD ⟨[], [], []⟩

/-- The run result of `export_training_data.main` on the concrete
environment `etEnvW`. -/
def etResW : RunResult ExportTrainingData.ETOp :=
  (ExportTrainingData.main etEnvW "ti.gdb" "tp.gdb" "bp.gdb" "outf").toOption.getD ⟨[], [], []⟩

/-- The trace of `delineate_roof_damage.main` on the concrete environment
`drEnvW`, with a decking model and a dual model but no hole model. -/
def drResW : List DelineateRoofDamage.DROp :=
  (DelineateRoofDamage.main drEnvW "di.gdb" "mdl_deck.dlpk" "" "mdl_dual.dlpk" "do.gdb"
    "ds.gdb").toOption.getD []

/-- The run result of `calculate_accuracy.main` on the concrete environment
`caEnvW`, in which `img2` is skipped for lack of a reference feature
class. -/
def caResW : RunResult CalculateAccuracy.CAOp :=
  (CalculateAccuracy.main caEnvW "P.gdb" "R.gdb" "I.gdb" "O.gdb" "S.gdb").toOption.getD
    ⟨[], [], []⟩

/-! ## Helper lemmas -/

/-- The per-item loop splits into the concatenated traces and the
filter-mapped skipped items. -/
theorem runLoop_eq {op : Type} (step : String → List op × Option String) (items : List String) :
    runLoop step items =
      (items.flatMap (fun i => (step i).1), items.filterMap (fun i => (step i).2)) := by
  suffices h : ∀ t s, items.foldl
      (fun acc i => (acc.1 ++ (step i).1, acc.2 ++ ((step i).2).toList)) (t, s) =
      (t ++ items.flatMap (fun i => (step i).1),
       s ++ items.filterMap (fun i => (step i).2)) by
    simpa [runLoop] using h [] []
  induction items with
  | nil => intro t s; simp
  | cons a l ih =>
    intro t s
    simp only [List.foldl_cons, List.flatMap_cons, List.filterMap_cons, ih]
    cases h2 : (step a).2 <;> simp [h2]

/-- A fold that appends per-item operation lists is their concatenation. -/
theorem foldl_append_eq {α β : Type} (f : α → List β) (items : List α) :
    items.foldl (fun acc i => acc ++ f i) [] = items.flatMap f := by
  suffices h : ∀ t, items.foldl (fun acc i => acc ++ f i) t = t ++ items.flatMap f by
    simpa using h []
  induction items with
  | nil => intro t; simp
  | cons a l ih => intro t; simp [List.foldl_cons, ih]

/-- Joining distinct dataset names under the same workspace yields distinct
paths. -/
theorem pathJoin_right_inj {a b c : String} (h : pathJoin a b = pathJoin a c) : b = c := by
  have hd := congrArg String.data h
  simp only [pathJoin, String.data_append, List.append_assoc] at hd
  have := List.append_cancel_left hd
  have := List.append_cancel_left this
  exact String.ext this

/-- Membership in a filter-mapped skip list, when every iteration can only
skip its own item. -/
theorem mem_skipped_iff {op : Type} {step : String → List op × Option String}
    (hstep : ∀ i x, (step i).2 = some x → x = i) {items : List String} {img : String}
    (h : img ∈ items) :
    img ∈ items.filterMap (fun i => (step i).2) ↔ (step img).2 = some img := by
  constructor
  · intro hm
    obtain ⟨a, ha, he⟩ := List.mem_filterMap.mp hm
    have := hstep a img he
    subst this
    exact he
  · intro he
    exact List.mem_filterMap.mpr ⟨img, h, he⟩

/-- A filter-mapped skip list of a duplicate-free item list is
duplicate-free, when every iteration can only skip its own item. -/
theorem skipped_nodup {op : Type} {step : String → List op × Option String}
    (hstep : ∀ i x, (step i).2 = some x → x = i) {items : List String}
    (h : items.Nodup) : (items.filterMap (fun i => (step i).2)).Nodup := by
  induction items with
  | nil => simp
  | cons a l ih =>
    simp only [List.filterMap_cons]
    rcases List.nodup_cons.mp h with ⟨hna, hl⟩
    cases h2 : (step a).2 with
    | none => exact ih hl
    | some x =>
      have hx : x = a := hstep a x h2
      refine List.nodup_cons.mpr ⟨?_, ih hl⟩
      intro hm
      obtain ⟨b, hb, he⟩ := List.mem_filterMap.mp hm
      have hxb : x = b := hstep b x he
      apply hna
      rw [← hx, hxb]
      exact hb

/-- An iteration of the `prepare_images` loop can only skip its own image. -/
theorem prepare_image_step_skip (env : Env) (f b o s : String) (bnd : List String) :
    ∀ i x, (PrepareImages.image_step env f b o s bnd i).2 = some x → x = i := by
  intro i x h
  simp only [PrepareImages.image_step] at h
  split_ifs at h <;> simp_all

/-- An iteration of the `export_training_data` loop can only skip its own
image. -/
theorem export_image_step_skip (ig tg bg od : String) (tfc bfc : List String) :
    ∀ i x, (ExportTrainingData.image_step ig tg bg od tfc bfc i).2 = some x → x = i := by
  intro i x h
  simp only [ExportTrainingData.image_step] at h
  split_ifs at h <;> simp_all

/-- An iteration of the `calculate_accuracy` loop can only skip its own
feature class. -/
theorem calculate_fclass_step_skip (pg rg ig sg : String) (rfc img : List String) :
    ∀ i x, (CalculateAccuracy.fclass_step pg rg ig sg rfc img i).2 = some x → x = i := by
  intro i x h
  simp only [CalculateAccuracy.fclass_step] at h
  split_ifs at h <;> simp_all

/-- When `prepare_images.main` completes, its result is the per-image loop's
trace and skipped list together with the skipped-images report. -/
theorem prepare_images_main_ok {env : Env} {f b o s : String}
    {r : RunResult PrepareImages.PIOp}
    (hok : PrepareImages.main env f b o s = Except.ok r) :
    r.trace = (env.listRasters f).flatMap
        (fun i => (PrepareImages.image_step env f b o s (env.listFeatureClasses b) i).1) ∧
    r.skipped = (env.listRasters f).filterMap
        (fun i => (PrepareImages.image_step env f b o s (env.listFeatureClasses b) i).2) ∧
    r.printed = PrepareImages.skip_report r.skipped := by
  unfold PrepareImages.main at hok
  split at hok
  · exact Except.noConfusion hok
  · split_ifs at hok <;> try exact Except.noConfusion hok
    have hr := Except.ok.inj hok
    subst hr
    refine ⟨?_, ?_, ?_⟩ <;> simp [runLoop_eq]

/-- When `export_training_data.main` completes, its result is the per-image
loop's trace and skipped list together with the skipped-images report. -/
theorem export_training_data_main_ok {env : Env} {ig tg bg od : String}
    {r : RunResult ExportTrainingData.ETOp}
    (hok : ExportTrainingData.main env ig tg bg od = Except.ok r) :
    r.trace = (env.listRasters ig).flatMap
        (fun i => (ExportTrainingData.image_step ig tg bg od
          (env.listFeatureClasses tg) (env.listFeatureClasses bg) i).1) ∧
    r.skipped = (env.listRasters ig).filterMap
        (fun i => (ExportTrainingData.image_step ig tg bg od
          (env.listFeatureClasses tg) (env.listFeatureClasses bg) i).2) ∧
    r.printed = ExportTrainingData.skip_report r.skipped := by
  unfold ExportTrainingData.main at hok
  split at hok
  · exact Except.noConfusion hok
  · split_ifs at hok <;> try exact Except.noConfusion hok
    have hr := Except.ok.inj hok
    subst hr
    refine ⟨?_, ?_, ?_⟩ <;> simp [runLoop_eq]

/-- When `calculate_accuracy.main` completes, its result is the
per-feature-class loop's trace followed by the final table-export phase,
the skipped list, and the skipped-feature-classes report. -/
theorem calculate_accuracy_main_ok {env : Env} {pg rg ig og sg : String}
    {r : RunResult CalculateAccuracy.CAOp}
    (hok : CalculateAccuracy.main env pg rg ig og sg = Except.ok r) :
    r.trace = (env.listFeatureClasses pg).flatMap
        (fun i => (CalculateAccuracy.fclass_step pg rg ig sg
          (env.listFeatureClasses rg) (env.listRasters ig) i).1) ++
        CalculateAccuracy.final_tables sg og (env.listFeatureClasses pg) ∧
    r.skipped = (env.listFeatureClasses pg).filterMap
        (fun i => (CalculateAccuracy.fclass_step pg rg ig sg
          (env.listFeatureClasses rg) (env.listRasters ig) i).2) ∧
    r.printed = CalculateAccuracy.skip_report r.skipped := by
  unfold CalculateAccuracy.main at hok
  split at hok
  · exact Except.noConfusion hok
  · split_ifs at hok <;> try exact Except.noConfusion hok
    have hr := Except.ok.inj hok
    subst hr
    refine ⟨?_, ?_, ?_⟩ <;> simp [runLoop_eq]

/-- When `delineate_roof_damage.main` completes, its trace is the
concatenation of the per-image delineation blocks. -/
theorem delineate_roof_damage_main_ok {env : Env} {ig md mh mdu og sg : String}
    {tr : List DelineateRoofDamage.DROp}
    (hok : DelineateRoofDamage.main env ig md mh mdu og sg = Except.ok tr) :
    tr = (env.listRasters ig).flatMap
        (DelineateRoofDamage.image_step ig og sg
          (DelineateRoofDamage.model_dictionary md mh mdu)) := by
  unfold DelineateRoofDamage.main at hok
  split at hok
  · exact Except.noConfusion hok
  split at hok
  · exact Except.noConfusion hok
  split at hok
  · exact Except.noConfusion hok
  split_ifs at hok <;> try exact Except.noConfusion hok
  have hr := Except.ok.inj hok
  rw [foldl_append_eq] at hr
  exact hr.symm

/-! ## Claim theorems -/

/-- C8: the generated `Accuracy_Category` expression labels a union feature
`TP` exactly when both FID fields equal 1, `FP` exactly when the predicted
FID equals 1 and the reference FID equals -1, `FN` exactly when the
predicted FID equals -1 and the reference FID equals 1, and `None` in every
other case, so a contributing FID of 0 or greater than 1 always yields
`None`. -/
theorem C8_accuracy_category_labels (p r : Int) :
    (CalculateAccuracy.accuracy_category p r = "TP" ↔ (p = 1 ∧ r = 1)) ∧
    (CalculateAccuracy.accuracy_category p r = "FP" ↔ (p = 1 ∧ r = -1)) ∧
    (CalculateAccuracy.accuracy_category p r = "FN" ↔ (p = -1 ∧ r = 1)) ∧
    ((p = 0 ∨ 1 < p ∨ r = 0 ∨ 1 < r) →
      CalculateAccuracy.accuracy_category p r = "None") := by
  unfold CalculateAccuracy.accuracy_category
  split_ifs with h1 h2 h3 <;> refine ⟨?_, ?_, ?_, ?_⟩ <;> simp_all <;> omega

/-- C8 witness: a union feature whose predicted FID is 0 is labelled
`None`. -/
theorem C8_accuracy_category_labels_witness :
    ((0 : Int) = 0 ∨ 1 < (0 : Int) ∨ (1 : Int) = 0 ∨ 1 < (1 : Int)) ∧
    CalculateAccuracy.accuracy_category 0 1 = "None" :=
  ⟨Or.inl rfl, (C8_accuracy_category_labels 0 1).2.2.2 (Or.inl rfl)⟩

/-- C9: the Precision, Recall, F1, and IoU expressions divide with no zero
guard: each fails (division by zero) exactly when its denominator
`TP + FP`, `TP + FN`, `2 * TP + FP + FN`, or `TP + FP + FN` is zero. -/
theorem C9_metric_expressions_divide_by_zero (tp fp fn : ℚ) :
    (CalculateAccuracy.precision_expression tp fp = none ↔ tp + fp = 0) ∧
    (CalculateAccuracy.recall_expression tp fn = none ↔ tp + fn = 0) ∧
    (CalculateAccuracy.f1_expression tp fp fn = none ↔ 2 * tp + fp + fn = 0) ∧
    (CalculateAccuracy.iou_expression tp fp fn = none ↔ tp + fp + fn = 0) := by
  unfold CalculateAccuracy.precision_expression CalculateAccuracy.recall_expression
    CalculateAccuracy.f1_expression CalculateAccuracy.iou_expression CalculateAccuracy.py_div
  refine ⟨?_, ?_, ?_, ?_⟩ <;> split_ifs <;> simp_all

/-- The per-item block of a member item is a contiguous segment of the
concatenated per-item traces. -/
theorem flatMap_infix {α β : Type} (f : α → List β) {l : List α} {a : α} (h : a ∈ l) :
    List.IsInfix (f a) (l.flatMap f) := by
  obtain ⟨s, t, rfl⟩ := List.append_of_mem h
  exact ⟨s.flatMap f, t.flatMap f, by simp⟩

/-- C1: contrary to the claim, a skipped predicted polygons feature class is
not excluded from the merge step. On `caEnvW`, `img2` is skipped (it has no
reference feature class) and its evaluation iteration issues no operations,
yet the merge of each damage class's accuracy tables still lists
`accuracy_Decking_img2` — a table the run never created — because the source
builds the merge input list from every feature class of the predicted
polygons geodatabase. -/
theorem C1_merge_inputs_include_skipped_fclass :
    CalculateAccuracy.main caEnvW "P.gdb" "R.gdb" "I.gdb" "O.gdb" "S.gdb" =
      Except.ok caResW ∧
    caResW.skipped = ["img2"] ∧
    CalculateAccuracy.fclass_step "P.gdb" "R.gdb" "I.gdb" "S.gdb"
      (caEnvW.listFeatureClasses "R.gdb") (caEnvW.listRasters "I.gdb") "img2" =
      ([], some "img2") ∧
    CalculateAccuracy.CAOp.merge_accuracy_tables
      [pathJoin "S.gdb" "accuracy_Decking_img1", pathJoin "S.gdb" "accuracy_Decking_img2"]
      (pathJoin "S.gdb" "accuracy_Decking") ∈ caResW.trace := by
  refine ⟨rfl, ?_, ?_, ?_⟩ <;> decide

/-- C2: in `prepare_images.main`, every image that is not skipped is
processed according to its spatial reference type: a geographic image has
its RGB bands extracted and is then projected and resampled to a 0.05 cell
size in the spatial reference of its same-named boundary feature class,
while a projected image is only resampled; in both cases the result is then
clipped by the same-named boundary polygon and exported to the output
geodatabase as an 8-bit unsigned raster named after the image file without
its extension. -/
theorem C2_prepare_images_per_image_processing {env : Env} {f b o s : String}
    {r : RunResult PrepareImages.PIOp}
    (hok : PrepareImages.main env f b o s = Except.ok r)
    {img : String} (him : img ∈ env.listRasters f)
    (hb : PrepareImages.get_file_name (pathJoin f img) ∈ env.listFeatureClasses b) :
    (env.srType (pathJoin f img) = "Geographic" →
      (PrepareImages.image_step env f b o s (env.listFeatureClasses b) img).1 =
        [PrepareImages.extract_rgb_bands (pathJoin f img) (pathJoin s "temp_raster_layer"),
         PrepareImages.project_resample_image (pathJoin s "temp_raster_layer")
           (pathJoin s "resampled")
           (env.srString (pathJoin b (PrepareImages.get_file_name (pathJoin f img)))),
         PrepareImages.clip_image (pathJoin s "resampled") (pathJoin s "clipped")
           (pathJoin b (PrepareImages.get_file_name (pathJoin f img))),
         PrepareImages.export_image (pathJoin s "clipped")
           (pathJoin o (PrepareImages.get_file_name (pathJoin f img)))] ∧
      List.IsInfix
        [PrepareImages.extract_rgb_bands (pathJoin f img) (pathJoin s "temp_raster_layer"),
         PrepareImages.project_resample_image (pathJoin s "temp_raster_layer")
           (pathJoin s "resampled")
           (env.srString (pathJoin b (PrepareImages.get_file_name (pathJoin f img)))),
         PrepareImages.clip_image (pathJoin s "resampled") (pathJoin s "clipped")
           (pathJoin b (PrepareImages.get_file_name (pathJoin f img))),
         PrepareImages.export_image (pathJoin s "clipped")
           (pathJoin o (PrepareImages.get_file_name (pathJoin f img)))]
        r.trace) ∧
    (env.srType (pathJoin f img) = "Projected" →
      (PrepareImages.image_step env f b o s (env.listFeatureClasses b) img).1 =
        [PrepareImages.resample_image (pathJoin f img) (pathJoin s "resampled"),
         PrepareImages.clip_image (pathJoin s "resampled") (pathJoin s "clipped")
           (pathJoin b (PrepareImages.get_file_name (pathJoin f img))),
         PrepareImages.export_image (pathJoin s "clipped")
           (pathJoin o (PrepareImages.get_file_name (pathJoin f img)))] ∧
      List.IsInfix
        [PrepareImages.resample_image (pathJoin f img) (pathJoin s "resampled"),
         PrepareImages.clip_image (pathJoin s "resampled") (pathJoin s "clipped")
           (pathJoin b (PrepareImages.get_file_name (pathJoin f img))),
         PrepareImages.export_image (pathJoin s "clipped")
           (pathJoin o (PrepareImages.get_file_name (pathJoin f img)))]
        r.trace) := by
  rw [(prepare_images_main_ok hok).1]
  constructor
  · intro hsr
    have hstep : (PrepareImages.image_step env f b o s (env.listFeatureClasses b) img).1 =
        [PrepareImages.extract_rgb_bands (pathJoin f img) (pathJoin s "temp_raster_layer"),
         PrepareImages.project_resample_image (pathJoin s "temp_raster_layer")
           (pathJoin s "resampled")
           (env.srString (pathJoin b (PrepareImages.get_file_name (pathJoin f img)))),
         PrepareImages.clip_image (pathJoin s "resampled") (pathJoin s "clipped")
           (pathJoin b (PrepareImages.get_file_name (pathJoin f img))),
         PrepareImages.export_image (pathJoin s "clipped")
           (pathJoin o (PrepareImages.get_file_name (pathJoin f img)))] := by
      simp [PrepareImages.image_step, hb, hsr]
    exact ⟨hstep, hstep ▸
      flatMap_infix (fun i => (PrepareImages.image_step env f b o s
        (env.listFeatureClasses b) i).1) him⟩
  · intro hsr
    have hstep : (PrepareImages.image_step env f b o s (env.listFeatureClasses b) img).1 =
        [PrepareImages.resample_image (pathJoin f img) (pathJoin s "resampled"),
         PrepareImages.clip_image (pathJoin s "resampled") (pathJoin s "clipped")
           (pathJoin b (PrepareImages.get_file_name (pathJoin f img))),
         PrepareImages.export_image (pathJoin s "clipped")
           (pathJoin o (PrepareImages.get_file_name (pathJoin f img)))] := by
      simp [PrepareImages.image_step, hb, hsr]
    exact ⟨hstep, hstep ▸
      flatMap_infix (fun i => (PrepareImages.image_step env f b o s
        (env.listFeatureClasses b) i).1) him⟩

/-- C2 witness: on `piEnvW`, the geographic image `g.tif` is processed with
band extraction, projection and resampling, clipping, and export. -/
theorem C2_prepare_images_per_image_processing_witness :
    PrepareImages.main piEnvW "imgs" "bnd.gdb" "out.gdb" "scr.gdb" = Except.ok piResW ∧
    "g.tif" ∈ piEnvW.listRasters "imgs" ∧
    PrepareImages.get_file_name (pathJoin "imgs" "g.tif") ∈
      piEnvW.listFeatureClasses "bnd.gdb" ∧
    piEnvW.srType (pathJoin "imgs" "g.tif") = "Geographic" ∧
    List.IsInfix
      [PrepareImages.extract_rgb_bands (pathJoin "imgs" "g.tif")
         (pathJoin "scr.gdb" "temp_raster_layer"),
       PrepareImages.project_resample_image (pathJoin "scr.gdb" "temp_raster_layer")
         (pathJoin "scr.gdb" "resampled")
         (piEnvW.srString (pathJoin "bnd.gdb" (PrepareImages.get_file_name
           (pathJoin "imgs" "g.tif")))),
       PrepareImages.clip_image (pathJoin "scr.gdb" "resampled") (pathJoin "scr.gdb" "clipped")
         (pathJoin "bnd.gdb" (PrepareImages.get_file_name (pathJoin "imgs" "g.tif"))),
       PrepareImages.export_image (pathJoin "scr.gdb" "clipped")
         (pathJoin "out.gdb" (PrepareImages.get_file_name (pathJoin "imgs" "g.tif")))]
      piResW.trace :=
  ⟨rfl, by decide, by decide, rfl,
   ((@C2_prepare_images_per_image_processing piEnvW "imgs" "bnd.gdb" "out.gdb" "scr.gdb"
     piResW rfl "g.tif" (by decide) (by decide)).1 rfl).2⟩

/-- C3: in `delineate_roof_damage.main`, the models are taken in the fixed
order decking, hole, dual, including exactly those whose path parameter is
non-empty; for every image, the script classifies the image with each model,
converts the classified raster to a single-part polygon feature class named
`image_damageclass` in the scratch geodatabase, deletes its `Id` and
`gridcode` fields, and merges the per-model feature classes into one output
feature class named after the image. -/
theorem C3_delineate_per_image_per_model {env : Env} {ig md mh mdu og sg : String}
    {tr : List DelineateRoofDamage.DROp}
    (hok : DelineateRoofDamage.main env ig md mh mdu og sg = Except.ok tr)
    {img : String} (him : img ∈ env.listRasters ig) :
    DelineateRoofDamage.model_dictionary md mh mdu =
      List.filterMap (fun m => if m.2 ≠ "" then some m else none)
        [("decking", md), ("hole", mh), ("dual", mdu)] ∧
    DelineateRoofDamage.image_step ig og sg (DelineateRoofDamage.model_dictionary md mh mdu)
      img =
      (DelineateRoofDamage.model_dictionary md mh mdu).flatMap (fun m =>
        [DelineateRoofDamage.classify_pixels (pathJoin ig img) m.2,
         DelineateRoofDamage.raster_to_fclass
           (DelineateRoofDamage.generate_classified_raster (pathJoin ig img) m.2)
           (pathJoin sg (img ++ "_" ++ m.1)),
         DelineateRoofDamage.delete_fclass_fields (pathJoin sg (img ++ "_" ++ m.1))]) ++
      [DelineateRoofDamage.merge_fclasses
        ((DelineateRoofDamage.model_dictionary md mh mdu).map
          (fun m => pathJoin sg (img ++ "_" ++ m.1)))
        (pathJoin og img)] ∧
    List.IsInfix
      ((DelineateRoofDamage.model_dictionary md mh mdu).flatMap (fun m =>
        [DelineateRoofDamage.classify_pixels (pathJoin ig img) m.2,
         DelineateRoofDamage.raster_to_fclass
           (DelineateRoofDamage.generate_classified_raster (pathJoin ig img) m.2)
           (pathJoin sg (img ++ "_" ++ m.1)),
         DelineateRoofDamage.delete_fclass_fields (pathJoin sg (img ++ "_" ++ m.1))]) ++
       [DelineateRoofDamage.merge_fclasses
         ((DelineateRoofDamage.model_dictionary md mh mdu).map
           (fun m => pathJoin sg (img ++ "_" ++ m.1)))
         (pathJoin og img)])
      tr := by
  refine ⟨?_, rfl, ?_⟩
  · unfold DelineateRoofDamage.model_dictionary
    by_cases h1 : md = "" <;> by_cases h2 : mh = "" <;> by_cases h3 : mdu = "" <;>
      simp [h1, h2, h3, List.filterMap_cons]
  · rw [delineate_roof_damage_main_ok hok]
    simpa [DelineateRoofDamage.image_step] using
      flatMap_infix (DelineateRoofDamage.image_step ig og sg
        (DelineateRoofDamage.model_dictionary md mh mdu)) him

/-- C3 witness: on `drEnvW`, with a decking and a dual model but no hole
model, the image `img` is classified by both models in order and the two
per-model feature classes are merged into the output feature class `img`. -/
theorem C3_delineate_per_image_per_model_witness :
    DelineateRoofDamage.main drEnvW "di.gdb" "mdl_deck.dlpk" "" "mdl_dual.dlpk" "do.gdb"
      "ds.gdb" = Except.ok drResW ∧
    "img" ∈ drEnvW.listRasters "di.gdb" ∧
    DelineateRoofDamage.model_dictionary "mdl_deck.dlpk" "" "mdl_dual.dlpk" =
      [("decking", "mdl_deck.dlpk"), ("dual", "mdl_dual.dlpk")] ∧
    List.IsInfix
      ((DelineateRoofDamage.model_dictionary "mdl_deck.dlpk" "" "mdl_dual.dlpk").flatMap
        (fun m =>
        [DelineateRoofDamage.classify_pixels (pathJoin "di.gdb" "img") m.2,
         DelineateRoofDamage.raster_to_fclass
           (DelineateRoofDamage.generate_classified_raster (pathJoin "di.gdb" "img") m.2)
           (pathJoin "ds.gdb" ("img" ++ "_" ++ m.1)),
         DelineateRoofDamage.delete_fclass_fields (pathJoin "ds.gdb" ("img" ++ "_" ++ m.1))]) ++
       [DelineateRoofDamage.merge_fclasses
         ((DelineateRoofDamage.model_dictionary "mdl_deck.dlpk" "" "mdl_dual.dlpk").map
           (fun m => pathJoin "ds.gdb" ("img" ++ "_" ++ m.1)))
         (pathJoin "do.gdb" "img")])
      drResW :=
  ⟨rfl, by decide, by decide,
   (@C3_delineate_per_image_per_model drEnvW "di.gdb" "mdl_deck.dlpk" "" "mdl_dual.dlpk"
     "do.gdb" "ds.gdb" drResW rfl "img" (by decide)).2.2⟩

/-- C4: in every script's `main`, a missing required workspace raises
`FileNotFoundError`; the existence checks run before the `.gdb` extension
checks, so when all required workspaces exist but one that must be a file
geodatabase has an extension other than `.gdb`, `main` raises `ValueError`
(for `delineate_roof_damage` the model-path checks, which also precede the
extension checks, are assumed to pass). -/
theorem C4_existence_before_extension_checks :
    (∀ (env : Env) (f b o s : String),
      (∃ w ∈ [f, b, o, s], env.pathExists w = false) →
      ∃ m, PrepareImages.main env f b o s = Except.error (PyError.fileNotFoundError m)) ∧
    (∀ (env : Env) (f b o s : String),
      (∀ w ∈ [f, b, o, s], env.pathExists w = true) →
      (PrepareImages.get_workspace_extension b ≠ ".gdb" ∨
       PrepareImages.get_workspace_extension o ≠ ".gdb" ∨
       PrepareImages.get_workspace_extension s ≠ ".gdb") →
      ∃ m, PrepareImages.main env f b o s = Except.error (PyError.valueError m)) ∧
    (∀ (env : Env) (ig tg bg od : String),
      (∃ w ∈ [ig, bg, tg, od], env.pathExists w = false) →
      ∃ m, ExportTrainingData.main env ig tg bg od =
        Except.error (PyError.fileNotFoundError m)) ∧
    (∀ (env : Env) (ig tg bg od : String),
      (∀ w ∈ [ig, bg, tg, od], env.pathExists w = true) →
      (ExportTrainingData.get_workspace_extension ig ≠ ".gdb" ∨
       ExportTrainingData.get_workspace_extension tg ≠ ".gdb" ∨
       ExportTrainingData.get_workspace_extension bg ≠ ".gdb") →
      ∃ m, ExportTrainingData.main env ig tg bg od = Except.error (PyError.valueError m)) ∧
    (∀ (env : Env) (ig md mh mdu og sg : String),
      (∃ w ∈ [ig, og, sg], env.pathExists w = false) →
      ∃ m, DelineateRoofDamage.main env ig md mh mdu og sg =
        Except.error (PyError.fileNotFoundError m)) ∧
    (∀ (env : Env) (ig md mh mdu og sg : String),
      (∀ w ∈ [ig, og, sg], env.pathExists w = true) →
      (List.filter (fun p => p != "") [md, mh, mdu]).length ≠ 0 →
      (∀ p ∈ List.filter (fun p => p != "") [md, mh, mdu], env.pathExists p = true) →
      (DelineateRoofDamage.get_workspace_extension ig ≠ ".gdb" ∨
       DelineateRoofDamage.get_workspace_extension og ≠ ".gdb" ∨
       DelineateRoofDamage.get_workspace_extension sg ≠ ".gdb") →
      ∃ m, DelineateRoofDamage.main env ig md mh mdu og sg =
        Except.error (PyError.valueError m)) ∧
    (∀ (env : Env) (pg rg ig og sg : String),
      (∃ w ∈ [pg, rg, ig, og, sg], env.pathExists w = false) →
      ∃ m, CalculateAccuracy.main env pg rg ig og sg =
        Except.error (PyError.fileNotFoundError m)) ∧
    (∀ (env : Env) (pg rg ig og sg : String),
      (∀ w ∈ [pg, rg, ig, og, sg], env.pathExists w = true) →
      (CalculateAccuracy.get_workspace_extension pg ≠ ".gdb" ∨
       CalculateAccuracy.get_workspace_extension rg ≠ ".gdb" ∨
       CalculateAccuracy.get_workspace_extension ig ≠ ".gdb" ∨
       CalculateAccuracy.get_workspace_extension og ≠ ".gdb" ∨
       CalculateAccuracy.get_workspace_extension sg ≠ ".gdb") →
      ∃ m, CalculateAccuracy.main env pg rg ig og sg =
        Except.error (PyError.valueError m)) := by
  have hsome : ∀ (env : Env) (l : List String), (∃ w ∈ l, env.pathExists w = false) →
      ∃ w, List.find? (fun w => ! env.pathExists w) l = some w := by
    intro env l ⟨w, hw, hfw⟩
    cases hf : List.find? (fun w => ! env.pathExists w) l with
    | some w' => exact ⟨w', rfl⟩
    | none =>
      have := List.find?_eq_none.mp hf w hw
      simp [hfw] at this
  have hnone : ∀ (env : Env) (l : List String), (∀ w ∈ l, env.pathExists w = true) →
      List.find? (fun w => ! env.pathExists w) l = none := by
    intro env l hall
    exact List.find?_eq_none.mpr (fun x hx => by simp [hall x hx])
  refine ⟨?_, ?_, ?_, ?_, ?_, ?_, ?_, ?_⟩
  · intro env f b o s hex
    obtain ⟨w, hw⟩ := hsome env _ hex
    exact ⟨w ++ " does not exist.", by unfold PrepareImages.main; rw [hw]⟩
  · intro env f b o s hall hbad
    have hf := hnone env _ hall
    unfold PrepareImages.main
    rw [hf]
    by_cases h1 : PrepareImages.get_workspace_extension b ≠ ".gdb"
    · exact ⟨_, by rw [if_pos h1]⟩
    by_cases h2 : PrepareImages.get_workspace_extension o ≠ ".gdb"
    · exact ⟨_, by rw [if_neg h1, if_pos h2]⟩
    by_cases h3 : PrepareImages.get_workspace_extension s ≠ ".gdb"
    · exact ⟨_, by rw [if_neg h1, if_neg h2, if_pos h3]⟩
    exact absurd hbad (by simp [not_or] at h1 h2 h3 ⊢; exact ⟨h1, h2, h3⟩)
  · intro env ig tg bg od hex
    obtain ⟨w, hw⟩ := hsome env _ hex
    exact ⟨w ++ " does not exist.", by unfold ExportTrainingData.main; rw [hw]⟩
  · intro env ig tg bg od hall hbad
    have hf := hnone env _ hall
    unfold ExportTrainingData.main
    rw [hf]
    by_cases h1 : ExportTrainingData.get_workspace_extension ig ≠ ".gdb"
    · exact ⟨_, by rw [if_pos h1]⟩
    by_cases h2 : ExportTrainingData.get_workspace_extension tg ≠ ".gdb"
    · exact ⟨_, by rw [if_neg h1, if_pos h2]⟩
    by_cases h3 : ExportTrainingData.get_workspace_extension bg ≠ ".gdb"
    · exact ⟨_, by rw [if_neg h1, if_neg h2, if_pos h3]⟩
    exact absurd hbad (by simp [not_or] at h1 h2 h3 ⊢; exact ⟨h1, h2, h3⟩)
  · intro env ig md mh mdu og sg hex
    obtain ⟨w, hw⟩ := hsome env _ hex
    exact ⟨w ++ " does not exist.", by unfold DelineateRoofDamage.main; rw [hw]⟩
  · intro env ig md mh mdu og sg hall hlen hmodels hbad
    have hf := hnone env _ hall
    have hfm := hnone env _ hmodels
    unfold DelineateRoofDamage.main
    rw [hf, if_neg hlen, hfm]
    by_cases h1 : DelineateRoofDamage.get_workspace_extension ig ≠ ".gdb"
    · exact ⟨_, by rw [if_pos h1]⟩
    by_cases h2 : DelineateRoofDamage.get_workspace_extension og ≠ ".gdb"
    · exact ⟨_, by rw [if_neg h1, if_pos h2]⟩
    by_cases h3 : DelineateRoofDamage.get_workspace_extension sg ≠ ".gdb"
    · exact ⟨_, by rw [if_neg h1, if_neg h2, if_pos h3]⟩
    exact absurd hbad (by simp [not_or] at h1 h2 h3 ⊢; exact ⟨h1, h2, h3⟩)
  · intro env pg rg ig og sg hex
    obtain ⟨w, hw⟩ := hsome env _ hex
    exact ⟨w ++ " does not exist.", by unfold CalculateAccuracy.main; rw [hw]⟩
  · intro env pg rg ig og sg hall hbad
    have hf := hnone env _ hall
    unfold CalculateAccuracy.main
    rw [hf]
    by_cases h1 : CalculateAccuracy.get_workspace_extension pg ≠ ".gdb"
    · exact ⟨_, by rw [if_pos h1]⟩
    by_cases h2 : CalculateAccuracy.get_workspace_extension rg ≠ ".gdb"
    · exact ⟨_, by rw [if_neg h1, if_pos h2]⟩
    by_cases h3 : CalculateAccuracy.get_workspace_extension ig ≠ ".gdb"
    · exact ⟨_, by rw [if_neg h1, if_neg h2, if_pos h3]⟩
    by_cases h4 : CalculateAccuracy.get_workspace_extension og ≠ ".gdb"
    · exact ⟨_, by rw [if_neg h1, if_neg h2, if_neg h3, if_pos h4]⟩
    by_cases h5 : CalculateAccuracy.get_workspace_extension sg ≠ ".gdb"
    · exact ⟨_, by rw [if_neg h1, if_neg h2, if_neg h3, if_neg h4, if_pos h5]⟩
    exact absurd hbad
      (by simp [not_or] at h1 h2 h3 h4 h5 ⊢; exact ⟨h1, h2, h3, h4, h5⟩)

/-- C4 witness: a non-existent boundary polygons path raises
`FileNotFoundError`, while an existing boundary polygons path without the
`.gdb` extension raises `ValueError`. -/
theorem C4_existence_before_extension_checks_witness :
    (∃ w ∈ ["imgs", "missing", "out.gdb", "scr.gdb"], piEnvW.pathExists w = false) ∧
    (∃ m, PrepareImages.main piEnvW "imgs" "missing" "out.gdb" "scr.gdb" =
      Except.error (PyError.fileNotFoundError m)) ∧
    (∀ w ∈ ["imgs", "plain", "out.gdb", "scr.gdb"], piEnvW.pathExists w = true) ∧
    (PrepareImages.get_workspace_extension "plain" ≠ ".gdb") ∧
    (∃ m, PrepareImages.main piEnvW "imgs" "plain" "out.gdb" "scr.gdb" =
      Except.error (PyError.valueError m)) :=
  ⟨by decide,
   C4_existence_before_extension_checks.1 piEnvW "imgs" "missing" "out.gdb" "scr.gdb"
     (by decide),
   by decide, by decide,
   C4_existence_before_extension_checks.2.1 piEnvW "imgs" "plain" "out.gdb" "scr.gdb"
     (by decide) (Or.inl (by decide))⟩

/-- C6: after workspace validation, each `main` enumerates the items it will
iterate over and raises `FileNotFoundError` when that list is empty, before
invoking any per-item geoprocessing operation (the error is raised instead
of returning any operation trace). -/
theorem C6_zero_items_raises :
    (∀ (env : Env) (f b o s : String),
      (∀ w ∈ [f, b, o, s], env.pathExists w = true) →
      PrepareImages.get_workspace_extension b = ".gdb" →
      PrepareImages.get_workspace_extension o = ".gdb" →
      PrepareImages.get_workspace_extension s = ".gdb" →
      env.listRasters f = [] →
      PrepareImages.main env f b o s = Except.error (PyError.fileNotFoundError
        "The input images folder contains zero valid images. Valid raster types include BMP, GIF, IMG, JP2, JPG, PNG, TIF, and GRID.")) ∧
    (∀ (env : Env) (ig tg bg od : String),
      (∀ w ∈ [ig, bg, tg, od], env.pathExists w = true) →
      ExportTrainingData.get_workspace_extension ig = ".gdb" →
      ExportTrainingData.get_workspace_extension tg = ".gdb" →
      ExportTrainingData.get_workspace_extension bg = ".gdb" →
      env.listRasters ig = [] →
      ExportTrainingData.main env ig tg bg od = Except.error (PyError.fileNotFoundError
        "The input images file geodatabase contains zero rasters.")) ∧
    (∀ (env : Env) (ig md mh mdu og sg : String),
      (∀ w ∈ [ig, og, sg], env.pathExists w = true) →
      (List.filter (fun p => p != "") [md, mh, mdu]).length ≠ 0 →
      (∀ p ∈ List.filter (fun p => p != "") [md, mh, mdu], env.pathExists p = true) →
      DelineateRoofDamage.get_workspace_extension ig = ".gdb" →
      DelineateRoofDamage.get_workspace_extension og = ".gdb" →
      DelineateRoofDamage.get_workspace_extension sg = ".gdb" →
      env.listRasters ig = [] →
      DelineateRoofDamage.main env ig md mh mdu og sg =
        Except.error (PyError.fileNotFoundError
          "The input images file geodatabase contains zero rasters.")) ∧
    (∀ (env : Env) (pg rg ig og sg : String),
      (∀ w ∈ [pg, rg, ig, og, sg], env.pathExists w = true) →
      CalculateAccuracy.get_workspace_extension pg = ".gdb" →
      CalculateAccuracy.get_workspace_extension rg = ".gdb" →
      CalculateAccuracy.get_workspace_extension ig = ".gdb" →
      CalculateAccuracy.get_workspace_extension og = ".gdb" →
      CalculateAccuracy.get_workspace_extension sg = ".gdb" →
      env.listFeatureClasses pg = [] →
      CalculateAccuracy.main env pg rg ig og sg = Except.error (PyError.fileNotFoundError
        "The predicted polygons file geodatabase contains zero feature classes.")) := by
  have hnone : ∀ (env : Env) (l : List String), (∀ w ∈ l, env.pathExists w = true) →
      List.find? (fun w => ! env.pathExists w) l = none := by
    intro env l hall
    exact List.find?_eq_none.mpr (fun x hx => by simp [hall x hx])
  refine ⟨?_, ?_, ?_, ?_⟩
  · intro env f b o s hall hb ho hs hz
    unfold PrepareImages.main
    rw [hnone env _ hall]
    simp [hb, ho, hs, hz]
  · intro env ig tg bg od hall hig htg hbg hz
    unfold ExportTrainingData.main
    rw [hnone env _ hall]
    simp [hig, htg, hbg, hz]
  · intro env ig md mh mdu og sg hall hlen hmodels hig hog hsg hz
    unfold DelineateRoofDamage.main
    rw [hnone env _ hall, if_neg hlen, hnone env _ hmodels]
    simp [hig, hog, hsg, hz]
  · intro env pg rg ig og sg hall hpg hrg hig hog hsg hz
    unfold CalculateAccuracy.main
    rw [hnone env _ hall]
    simp [hpg, hrg, hig, hog, hsg, hz]

/-- C6 witness: on `piEnvW`, the existing folder `imgs0` contains no
rasters, so `prepare_images.main` raises `FileNotFoundError`. -/
theorem C6_zero_items_raises_witness :
    (∀ w ∈ ["imgs0", "bnd.gdb", "out.gdb", "scr.gdb"], piEnvW.pathExists w = true) ∧
    piEnvW.listRasters "imgs0" = [] ∧
    PrepareImages.main piEnvW "imgs0" "bnd.gdb" "out.gdb" "scr.gdb" =
      Except.error (PyError.fileNotFoundError
        "The input images folder contains zero valid images. Valid raster types include BMP, GIF, IMG, JP2, JPG, PNG, TIF, and GRID.") :=
  ⟨by decide, by decide,
   C6_zero_items_raises.1 piEnvW "imgs0" "bnd.gdb" "out.gdb" "scr.gdb"
     (by decide) (by decide) (by decide) (by decide) (by decide)⟩

/-- C7: in each `main` that can skip items, the skipped-items report is
printed if and only if at least one item was skipped; when printed, it lists
exactly the skipped items, in the order in which they were skipped, and (for
duplicate-free item lists) each skipped item appears exactly once. -/
theorem C7_skipped_items_report :
    (∀ (env : Env) (f b o s : String) (r : RunResult PrepareImages.PIOp),
      PrepareImages.main env f b o s = Except.ok r →
      ((r.printed = [] ↔ r.skipped = []) ∧
       (r.skipped ≠ [] →
         r.printed = "\nThe following images were skipped:" :: r.skipped) ∧
       ((env.listRasters f).Nodup → r.skipped.Nodup))) ∧
    (∀ (env : Env) (ig tg bg od : String) (r : RunResult ExportTrainingData.ETOp),
      ExportTrainingData.main env ig tg bg od = Except.ok r →
      ((r.printed = [] ↔ r.skipped = []) ∧
       (r.skipped ≠ [] →
         r.printed = "\nThe following images were skipped:" :: r.skipped) ∧
       ((env.listRasters ig).Nodup → r.skipped.Nodup))) ∧
    (∀ (env : Env) (pg rg ig og sg : String) (r : RunResult CalculateAccuracy.CAOp),
      CalculateAccuracy.main env pg rg ig og sg = Except.ok r →
      ((r.printed = [] ↔ r.skipped = []) ∧
       (r.skipped ≠ [] → r.printed =
         "\nThe following predicted polygons feature classes were skipped:" :: r.skipped) ∧
       ((env.listFeatureClasses pg).Nodup → r.skipped.Nodup))) := by
  refine ⟨?_, ?_, ?_⟩
  · intro env f b o s r hok
    obtain ⟨-, hsk, hpr⟩ := prepare_images_main_ok hok
    refine ⟨?_, ?_, ?_⟩
    · rw [hpr]
      unfold PrepareImages.skip_report
      cases r.skipped <;> simp
    · intro hne
      rw [hpr]
      unfold PrepareImages.skip_report
      rw [if_pos (by simpa using List.length_pos.mpr hne)]
    · intro hnd
      rw [hsk]
      exact skipped_nodup (prepare_image_step_skip env f b o s (env.listFeatureClasses b)) hnd
  · intro env ig tg bg od r hok
    obtain ⟨-, hsk, hpr⟩ := export_training_data_main_ok hok
    refine ⟨?_, ?_, ?_⟩
    · rw [hpr]
      unfold ExportTrainingData.skip_report
      cases r.skipped <;> simp
    · intro hne
      rw [hpr]
      unfold ExportTrainingData.skip_report
      rw [if_pos (by simpa using List.length_pos.mpr hne)]
    · intro hnd
      rw [hsk]
      exact skipped_nodup
        (export_image_step_skip ig tg bg od (env.listFeatureClasses tg)
          (env.listFeatureClasses bg)) hnd
  · intro env pg rg ig og sg r hok
    obtain ⟨-, hsk, hpr⟩ := calculate_accuracy_main_ok hok
    refine ⟨?_, ?_, ?_⟩
    · rw [hpr]
      unfold CalculateAccuracy.skip_report
      cases r.skipped <;> simp
    · intro hne
      rw [hpr]
      unfold CalculateAccuracy.skip_report
      rw [if_pos (by simpa using List.length_pos.mpr hne)]
    · intro hnd
      rw [hsk]
      exact skipped_nodup
        (calculate_fclass_step_skip pg rg ig sg (env.listFeatureClasses rg)
          (env.listRasters ig)) hnd

/-- C7 witness: on `piEnvW`, two images are skipped (`u.tif` for its unknown
spatial reference, then `m.tif` for its missing boundary feature class) and
the report lists them in that order after the header line. -/
theorem C7_skipped_items_report_witness :
    PrepareImages.main piEnvW "imgs" "bnd.gdb" "out.gdb" "scr.gdb" = Except.ok piResW ∧
    piResW.skipped = ["u.tif", "m.tif"] ∧
    piResW.printed = "\nThe following images were skipped:" :: piResW.skipped :=
  ⟨rfl, by decide,
   ((C7_skipped_items_report.1 piEnvW "imgs" "bnd.gdb" "out.gdb" "scr.gdb" piResW
     rfl).2.1) (by decide)⟩

/-- C5: items are matched to their companion datasets by name and unmatched
items are skipped rather than aborting the run: in `export_training_data` an
image is exported if and only if same-named feature classes exist in both
the training and boundary polygons geodatabases; in `prepare_images` an
image whose name (file name without extension) has no boundary feature class
is skipped with no operations issued, and a processed image always has one;
in `calculate_accuracy` a predicted feature class is skipped exactly when a
same-named reference feature class or prepared test image is missing, and a
skipped iteration issues no operations. -/
theorem C5_name_matching_skips :
    (∀ (env : Env) (ig tg bg od : String) (r : RunResult ExportTrainingData.ETOp),
      ExportTrainingData.main env ig tg bg od = Except.ok r →
      ∀ img ∈ env.listRasters ig,
        ((img ∈ env.listFeatureClasses tg ∧ img ∈ env.listFeatureClasses bg) ↔
          ExportTrainingData.export_training_data (pathJoin ig img) od (pathJoin tg img)
            (pathJoin bg img) ∈ r.trace) ∧
        (img ∈ r.skipped ↔
          (img ∉ env.listFeatureClasses tg ∨ img ∉ env.listFeatureClasses bg))) ∧
    (∀ (env : Env) (f b o s : String) (r : RunResult PrepareImages.PIOp),
      PrepareImages.main env f b o s = Except.ok r →
      ∀ img ∈ env.listRasters f,
        (PrepareImages.get_file_name (pathJoin f img) ∉ env.listFeatureClasses b →
          img ∈ r.skipped ∧
          PrepareImages.image_step env f b o s (env.listFeatureClasses b) img =
            ([], some img)) ∧
        (img ∉ r.skipped →
          PrepareImages.get_file_name (pathJoin f img) ∈ env.listFeatureClasses b)) ∧
    (∀ (env : Env) (pg rg ig og sg : String) (r : RunResult CalculateAccuracy.CAOp),
      CalculateAccuracy.main env pg rg ig og sg = Except.ok r →
      ∀ fc ∈ env.listFeatureClasses pg,
        (fc ∈ r.skipped ↔
          (fc ∉ env.listFeatureClasses rg ∨ fc ∉ env.listRasters ig)) ∧
        ((fc ∉ env.listFeatureClasses rg ∨ fc ∉ env.listRasters ig) →
          CalculateAccuracy.fclass_step pg rg ig sg (env.listFeatureClasses rg)
            (env.listRasters ig) fc = ([], some fc))) := by
  refine ⟨?_, ?_, ?_⟩
  · intro env ig tg bg od r hok img him
    obtain ⟨htr, hsk, -⟩ := export_training_data_main_ok hok
    constructor
    · rw [htr]
      constructor
      · rintro ⟨h1, h2⟩
        exact List.mem_flatMap.mpr
          ⟨img, him, by simp [ExportTrainingData.image_step, h1, h2]⟩
      · intro hm
        obtain ⟨i, hi, hop⟩ := List.mem_flatMap.mp hm
        by_cases h1 : i ∈ env.listFeatureClasses tg
        · by_cases h2 : i ∈ env.listFeatureClasses bg
          · simp [ExportTrainingData.image_step, h1, h2,
              ExportTrainingData.export_training_data] at hop
            have : img = i := pathJoin_right_inj hop.1
            subst this
            exact ⟨h1, h2⟩
          · simp [ExportTrainingData.image_step, h1, h2] at hop
        · simp [ExportTrainingData.image_step, h1] at hop
    · rw [hsk,
        mem_skipped_iff (export_image_step_skip ig tg bg od (env.listFeatureClasses tg)
          (env.listFeatureClasses bg)) him]
      unfold ExportTrainingData.image_step
      split_ifs with h1 h2 <;> simp_all
  · intro env f b o s r hok img him
    obtain ⟨-, hsk, -⟩ := prepare_images_main_ok hok
    constructor
    · intro hnb
      refine ⟨?_, by simp [PrepareImages.image_step, hnb]⟩
      rw [hsk]
      exact List.mem_filterMap.mpr ⟨img, him, by simp [PrepareImages.image_step, hnb]⟩
    · intro hns
      by_contra hnb
      apply hns
      rw [hsk]
      exact List.mem_filterMap.mpr ⟨img, him, by simp [PrepareImages.image_step, hnb]⟩
  · intro env pg rg ig og sg r hok fc hfc
    obtain ⟨-, hsk, -⟩ := calculate_accuracy_main_ok hok
    constructor
    · rw [hsk,
        mem_skipped_iff (calculate_fclass_step_skip pg rg ig sg
          (env.listFeatureClasses rg) (env.listRasters ig)) hfc]
      unfold CalculateAccuracy.fclass_step
      split_ifs with h1 h2 <;> simp_all
    · intro hor
      unfold CalculateAccuracy.fclass_step
      split_ifs with h1 h2 <;> simp_all

/-- C5 witness: on `etEnvW`, the image `x` (matched in both geodatabases) is
exported, while `y` (no training polygons feature class) is skipped. -/
theorem C5_name_matching_skips_witness :
    ExportTrainingData.main etEnvW "ti.gdb" "tp.gdb" "bp.gdb" "outf" = Except.ok etResW ∧
    "x" ∈ etEnvW.listRasters "ti.gdb" ∧
    ExportTrainingData.export_training_data (pathJoin "ti.gdb" "x") "outf"
      (pathJoin "tp.gdb" "x") (pathJoin "bp.gdb" "x") ∈ etResW.trace ∧
    "y" ∈ etEnvW.listRasters "ti.gdb" ∧
    ("y" ∈ etResW.skipped ↔
      ("y" ∉ etEnvW.listFeatureClasses "tp.gdb" ∨
       "y" ∉ etEnvW.listFeatureClasses "bp.gdb")) :=
  ⟨rfl, by decide,
   ((C5_name_matching_skips.1 etEnvW "ti.gdb" "tp.gdb" "bp.gdb" "outf" etResW rfl "x"
     (by decide)).1).mp (by decide),
   by decide,
   ((C5_name_matching_skips.1 etEnvW "ti.gdb" "tp.gdb" "bp.gdb" "outf" etResW rfl "y"
     (by decide)).2)⟩

/-- C10: in `prepare_images.main`, an image with a matching boundary feature
class is skipped if and only if its spatial reference type is `Unknown`;
when the type is defined but neither `Geographic` nor `Projected`, the
image's iteration issues no resampling at all — only the clip of the
`resampled` scratch dataset and the export — so under the provenance
semantics the exported raster derives from whatever the `resampled` dataset
held when the iteration started, not from the image itself. -/
theorem C10_unknown_sr_skip_and_stale_resampled {env : Env} {f b o s : String}
    {r : RunResult PrepareImages.PIOp}
    (hok : PrepareImages.main env f b o s = Except.ok r)
    {img : String} (him : img ∈ env.listRasters f)
    (hb : PrepareImages.get_file_name (pathJoin f img) ∈ env.listFeatureClasses b) :
    (img ∈ r.skipped ↔ env.srType (pathJoin f img) = "Unknown") ∧
    (env.srType (pathJoin f img) ≠ "Unknown" →
     env.srType (pathJoin f img) ≠ "Geographic" →
     env.srType (pathJoin f img) ≠ "Projected" →
      (PrepareImages.image_step env f b o s (env.listFeatureClasses b) img).1 =
        [PrepareImages.clip_image (pathJoin s "resampled") (pathJoin s "clipped")
           (pathJoin b (PrepareImages.get_file_name (pathJoin f img))),
         PrepareImages.export_image (pathJoin s "clipped")
           (pathJoin o (PrepareImages.get_file_name (pathJoin f img)))] ∧
      ∀ σ : String → Option String,
        PrepareImages.runProv σ
          (PrepareImages.image_step env f b o s (env.listFeatureClasses b) img).1
          (pathJoin o (PrepareImages.get_file_name (pathJoin f img))) =
        σ (pathJoin s "resampled")) := by
  obtain ⟨-, hsk, -⟩ := prepare_images_main_ok hok
  constructor
  · rw [hsk,
      mem_skipped_iff (prepare_image_step_skip env f b o s (env.listFeatureClasses b)) him]
    simp only [PrepareImages.image_step]
    split_ifs with h1 <;> simp_all
  · intro hu hg hp
    have hstep : (PrepareImages.image_step env f b o s (env.listFeatureClasses b) img).1 =
        [PrepareImages.clip_image (pathJoin s "resampled") (pathJoin s "clipped")
           (pathJoin b (PrepareImages.get_file_name (pathJoin f img))),
         PrepareImages.export_image (pathJoin s "clipped")
           (pathJoin o (PrepareImages.get_file_name (pathJoin f img)))] := by
      simp [PrepareImages.image_step, hb, hu, hg, hp]
    refine ⟨hstep, ?_⟩
    intro σ
    rw [hstep]
    simp [PrepareImages.runProv, PrepareImages.opDst, PrepareImages.opSrc,
      PrepareImages.clip_image, PrepareImages.export_image]

/-- C10 witness: on `piEnvW`, the image `v.tif` has the defined spatial
reference type `Vertical`, is not skipped, and when the `resampled` scratch
dataset still holds pixels derived from `a.tif`, the raster exported for
`v.tif` derives from `a.tif`. -/
theorem C10_unknown_sr_skip_and_stale_resampled_witness :
    PrepareImages.main piEnvW "imgs" "bnd.gdb" "out.gdb" "scr.gdb" = Except.ok piResW ∧
    piEnvW.srType (pathJoin "imgs" "v.tif") = "Vertical" ∧
    ("v.tif" ∈ piResW.skipped ↔ piEnvW.srType (pathJoin "imgs" "v.tif") = "Unknown") ∧
    PrepareImages.runProv
      (fun p => if p = pathJoin "scr.gdb" "resampled"
        then some (pathJoin "imgs" "a.tif") else none)
      (PrepareImages.image_step piEnvW "imgs" "bnd.gdb" "out.gdb" "scr.gdb"
        (piEnvW.listFeatureClasses "bnd.gdb") "v.tif").1
      (pathJoin "out.gdb" (PrepareImages.get_file_name (pathJoin "imgs" "v.tif"))) =
      some (pathJoin "imgs" "a.tif") := by
  have h10 := @C10_unknown_sr_skip_and_stale_resampled piEnvW "imgs" "bnd.gdb" "out.gdb"
    "scr.gdb" piResW rfl "v.tif" (by decide) (by decide)
  refine ⟨rfl, rfl, h10.1, ?_⟩
  rw [(h10.2 (by decide) (by decide) (by decide)).2]
  decide

/-- C9 witness: a row with zero TP, FP, and FN pixels makes every metric
expression fail with a division by zero. -/
theorem C9_metric_expressions_divide_by_zero_witness :
    CalculateAccuracy.precision_expression 0 0 = none ∧
    CalculateAccuracy.recall_expression 0 0 = none ∧
    CalculateAccuracy.f1_expression 0 0 0 = none ∧
    CalculateAccuracy.iou_expression 0 0 0 = none :=
  ⟨(C9_metric_expressions_divide_by_zero 0 0 0).1.mpr (by norm_num),
   (C9_metric_expressions_divide_by_zero 0 0 0).2.1.mpr (by norm_num),
   (C9_metric_expressions_divide_by_zero 0 0 0).2.2.1.mpr (by norm_num),
   (C9_metric_expressions_divide_by_zero 0 0 0).2.2.2.mpr (by norm_num)⟩
